import Mathlib

/-!
Verification development for the `organix` service-supervision library.

The embedding follows the Rust sources:
  * `src/service/mod.rs`      — `ServiceManager`, `ServiceRuntime`, the watcher loop;
  * `src/watchdog/mod.rs`     — the supervisor (`Watchdog::watchdog`) loop;
  * `src/watchdog/control_command.rs` — `WatchdogQuery` and the command queue;
  * `organix-derive/src/gen.rs` — the generated `Organix` impl (aggregate
    dispatch by struct-field name).

The submodules `service/{status,control,intercom,stats}.rs` are declared in
`service/mod.rs` but their files are not part of the source tree available
here; the types they define (`Status`, `Control`, the control cell, the
intercom channel and the `Intercom` façade) are modelled from the
specification, as marked on each definition.

Conventions of the embedding:
  * tokio handles, spawned tasks and wall-clock reads are abstracted: a
    status write takes the timestamp as an explicit `Nat` argument;
  * intercom channels are identified by a `Nat` token drawn from a fresh-name
    supply threaded through the operations that allocate channels;
  * the status cell shared between a manager's `StatusReader` and the
    activation's `StatusUpdater` is represented by the `status` field of the
    manager record; the control cell shared between the manager's
    `Controller` and the activation's `ControlReader` is the `controller`
    field (the slot's current content).
-/

/-- Modelled from the spec (§3, §4.2); `service/status.rs` is not in the
source tree. One of `Shutdown`, `Starting`, `Started`, `ShuttingDown`,
each carrying a wall-clock `since` timestamp. -/
inductive Status where
  | Shutdown (since : Nat)
  | Starting (since : Nat)
  | Started (since : Nat)
  | ShuttingDown (since : Nat)
  deriving DecidableEq, Repr

/-- Modelled from the spec (§4.4): `runtime(query)` "fails with
`CannotStart{status}` if status ≠ `Shutdown`", so `is_shutdown` recognises
exactly the `Shutdown` variant. -/
def Status.is_shutdown : Status → Bool
  | .Shutdown _ => true
  | _ => false

/-- Modelled from the spec (§4.3); `service/control.rs` is not in the source
tree. Commands carried by the control cell. -/
inductive Control where
  | Shutdown
  | Kill
  deriving DecidableEq, Repr

/-- Modelled from the spec (§4.3): the control cell is a single-slot
latest-value channel; "if multiple commands arrive before being consumed,
`Kill` supersedes `Shutdown`; otherwise the newer value replaces the older." -/
def Control.put : Option Control → Control → Option Control
  | some .Kill, .Shutdown => some .Kill
  | _, c => some c

/-- `ServiceError` from `src/service/mod.rs`. -/
inductive ServiceError where
  | CannotStart (status : Status)
  deriving DecidableEq, Repr

/-- `WatchdogError` from `src/watchdog/mod.rs`. The `NoReply.reason`
(`oneshot::error::RecvError`) carries no data and is dropped; boxed intercom
senders are represented by their channel token. -/
inductive WatchdogError where
  | UnknownService (service_identifier : String) (possible_values : List String)
  | CannotStartService (service_identifier : String) (source : ServiceError)
  | CannotConnectToService (service_identifier : String) (retry_attempted : Bool)
  | NoReply (context : String)
  deriving DecidableEq, Repr

/-- `StatusReport` from `src/service/mod.rs`: the `intercom` field
(`IntercomStatus`, a statistics snapshot; `service/stats.rs` is not in the
source tree) is represented by the statistics handle's channel token. -/
structure StatusReport where
  identifier : String
  status : Status
  intercom : Nat
  started : Nat
  deriving DecidableEq, Repr

/-- `ServiceManager<T>` from `src/service/mod.rs`. `intercom_sender` and
`intercom_stats` hold the channel token of the allocation they came from;
`controller` is the content of the control cell the manager's `Controller`
writes into; the tokio `runtime: Handle` field is abstracted away. -/
structure ServiceManager where
  identifier : String
  intercom_sender : Nat
  intercom_stats : Nat
  started : Nat
  status : Status
  controller : Option Control
  deriving DecidableEq, Repr

/-- `ServiceState<T>` from `src/service/mod.rs`: the per-activation view
handed to user code. The tokio handle and the `WatchdogQuery` clone are
abstracted away. -/
structure ServiceState where
  identifier : String
  intercom_receiver : Nat
  deriving DecidableEq, Repr

/-- `ServiceRuntime<T>` from `src/service/mod.rs`: the transient object for
one activation. The `StatusUpdater` and `ControlReader` ends point back into
the manager's `status` and `controller` cells. -/
structure ServiceRuntime where
  service_state : ServiceState
  deriving DecidableEq, Repr

/-- `ServiceManager::with_runtime` (`src/service/mod.rs`): status starts as
`Shutdown`, `started` (the restart counter) is `0`, a fresh channel is
allocated (token `chan`), the control cell starts empty. `t` is the
construction time. -/
def ServiceManager.with_runtime (identifier : String) (t : Nat) (chan : Nat) :
    ServiceManager :=
  { identifier := identifier
    intercom_sender := chan
    intercom_stats := chan
    started := 0
    status := Status.Shutdown t
    controller := none }

/-- `ServiceManager::intercom` (`src/service/mod.rs`): clone the current
sender — the clone shares the channel token. -/
def ServiceManager.intercom (m : ServiceManager) : Nat :=
  m.intercom_sender

/-- `ServiceManager::status` (`src/service/mod.rs`), renamed because `status`
is already the field holding the status cell. -/
def ServiceManager.status_report (m : ServiceManager) : StatusReport :=
  { identifier := m.identifier
    status := m.status
    intercom := m.intercom_stats
    started := m.started }

/-- `ServiceManager::shutdown` (`src/service/mod.rs`): the effect on the
control cell — send `Control::Shutdown` only when the status is `Starting`
or `Started`, otherwise leave the cell alone. -/
def shutdownSignal (status : Status) (slot : Option Control) : Option Control :=
  match status with
  | .Shutdown _ | .ShuttingDown _ => slot
  | .Starting _ | .Started _ => Control.put slot Control.Shutdown

/-- `ServiceManager::shutdown` as a whole-manager update. -/
def ServiceManager.shutdown (m : ServiceManager) : ServiceManager :=
  { m with controller := shutdownSignal m.status m.controller }

/-- `ServiceManager::runtime` (`src/service/mod.rs`). On a status other than
`Shutdown` it returns `Err(CannotStart { status })` and leaves the manager
untouched; otherwise it allocates a fresh channel (token `supply`), replaces
the stored sender and statistics handle, increments `started`, and returns
the `ServiceRuntime`. The result is `(reply, manager after the call, next
fresh token)`. -/
def ServiceManager.runtime (m : ServiceManager) (supply : Nat) :
    Except ServiceError ServiceRuntime × ServiceManager × Nat :=
  let status := m.status
  if !status.is_shutdown then
    (Except.error (ServiceError.CannotStart status), m, supply)
  else
    let m' := { m with
      intercom_sender := supply
      intercom_stats := supply
      started := m.started + 1 }
    (Except.ok { service_state := { identifier := m.identifier, intercom_receiver := supply } },
      m', supply + 1)

/-- Operations that touch a `ServiceManager` during its life
(`src/service/mod.rs`): `intercom` and `status` take `&self`; `shutdown`
takes `&mut self` but only writes the control cell; `runtime` is the start
path; `watcherWrite` is a write to the shared status cell performed by the
activation's watcher through its `StatusUpdater`. -/
inductive MgrOp where
  | intercomOp
  | statusOp
  | shutdownOp
  | runtimeOp (supply : Nat)
  | watcherWrite (s : Status)
  deriving DecidableEq, Repr

/-- Effect of one operation on the manager. -/
def mgrStep (m : ServiceManager) : MgrOp → ServiceManager
  | .intercomOp => m
  | .statusOp => m
  | .shutdownOp => m.shutdown
  | .runtimeOp supply => (m.runtime supply).2.1
  | .watcherWrite s => { m with status := s }

/-- Run a sequence of operations on the manager. -/
def mgrRun (m : ServiceManager) : List MgrOp → ServiceManager
  | [] => m
  | op :: ops => mgrRun (mgrStep m op) ops

/-- Contribution of one operation to the count of successful starts: a
`runtimeOp` succeeds exactly when the status at that point is `Shutdown`;
no other operation is a start. -/
def mgrStartWeight (m : ServiceManager) : MgrOp → Nat
  | .runtimeOp _ => if m.status.is_shutdown then 1 else 0
  | .intercomOp => 0
  | .statusOp => 0
  | .shutdownOp => 0
  | .watcherWrite _ => 0

/-- Number of successful `runtime` calls in a trace. -/
def mgrCountStarts (m : ServiceManager) : List MgrOp → Nat
  | [] => 0
  | op :: ops => mgrStartWeight m op + mgrCountStarts (mgrStep m op) ops


/-- `Struct::possible_values` (`organix-derive/src/gen.rs`): the names of the
declared, non-skipped fields of the aggregate, in declaration order. The
aggregate itself is embedded as the list of its non-skipped fields, each a
field name paired with its `ServiceManager`. -/
def possible_values (fields : List (String × ServiceManager)) : List String :=
  fields.map Prod.fst

/-- Generated `Organix::start` (`organix-derive/src/gen.rs`), inner match:
`all` is the full `possible_values` enumeration used in the fall-through
arm. On a name match, `self.#field_name.runtime(watchdog_query)` runs; on
`Ok(rt)` the reply is `Ok(rt.start())` and `rt.start()` writes `Starting`
into the shared status cell (`ServiceRuntime::start`, `src/service/mod.rs`);
on `Err(source)` the reply is `CannotStartService`. `t` is the wall-clock
time of the `Starting` write. -/
def organixStartGo (service_identifier : String) (t : Nat) (all : List String) :
    List (String × ServiceManager) → Nat →
      Except WatchdogError Unit × List (String × ServiceManager) × Nat
  | [], supply =>
      (Except.error (WatchdogError.UnknownService service_identifier all), [], supply)
  | (name, m) :: rest, supply =>
      if name = service_identifier then
        match m.runtime supply with
        | (Except.ok _, m', supply') =>
            (Except.ok (), (name, { m' with status := Status.Starting t }) :: rest, supply')
        | (Except.error source, m', supply') =>
            (Except.error (WatchdogError.CannotStartService service_identifier source),
              (name, m') :: rest, supply')
      else
        let r := organixStartGo service_identifier t all rest supply
        (r.1, (name, m) :: r.2.1, r.2.2)

/-- Generated `Organix::start` (`organix-derive/src/gen.rs`). -/
def organixStart (fields : List (String × ServiceManager)) (service_identifier : String)
    (t supply : Nat) :
    Except WatchdogError Unit × List (String × ServiceManager) × Nat :=
  organixStartGo service_identifier t (possible_values fields) fields supply

/-- Generated `Organix::stop` (`organix-derive/src/gen.rs`), inner match: a
matching arm replies `Ok(self.#field_name.shutdown())`. -/
def organixStopGo (service_identifier : String) (all : List String) :
    List (String × ServiceManager) →
      Except WatchdogError Unit × List (String × ServiceManager)
  | [] => (Except.error (WatchdogError.UnknownService service_identifier all), [])
  | (name, m) :: rest =>
      if name = service_identifier then
        (Except.ok (), (name, m.shutdown) :: rest)
      else
        let r := organixStopGo service_identifier all rest
        (r.1, (name, m) :: r.2)

/-- Generated `Organix::stop` (`organix-derive/src/gen.rs`). -/
def organixStop (fields : List (String × ServiceManager)) (service_identifier : String) :
    Except WatchdogError Unit × List (String × ServiceManager) :=
  organixStopGo service_identifier (possible_values fields) fields

/-- Generated `Organix::status` (`organix-derive/src/gen.rs`), inner match:
a matching arm replies `Ok(self.#field_name.status().await)`; the aggregate
is not modified. -/
def organixStatusGo (service_identifier : String) (all : List String) :
    List (String × ServiceManager) → Except WatchdogError StatusReport
  | [] => Except.error (WatchdogError.UnknownService service_identifier all)
  | (name, m) :: rest =>
      if name = service_identifier then Except.ok m.status_report
      else organixStatusGo service_identifier all rest

/-- Generated `Organix::status` (`organix-derive/src/gen.rs`). -/
def organixStatus (fields : List (String × ServiceManager)) (service_identifier : String) :
    Except WatchdogError StatusReport :=
  organixStatusGo service_identifier (possible_values fields) fields

/-- Generated `Organix::intercoms` (`organix-derive/src/gen.rs`), inner
match: a matching arm replies `Ok(Box::new(self.#field_name.intercom()))` —
the boxed sender clone, represented by its channel token. -/
def organixIntercomsGo (service_identifier : String) (all : List String) :
    List (String × ServiceManager) → Except WatchdogError Nat
  | [] => Except.error (WatchdogError.UnknownService service_identifier all)
  | (name, m) :: rest =>
      if name = service_identifier then Except.ok m.intercom
      else organixIntercomsGo service_identifier all rest

/-- Generated `Organix::intercoms` (`organix-derive/src/gen.rs`). -/
def organixIntercoms (fields : List (String × ServiceManager)) (service_identifier : String) :
    Except WatchdogError Nat :=
  organixIntercomsGo service_identifier (possible_values fields) fields

/-- `ControlCommand` (`src/watchdog/control_command.rs`). The reply one-shot
slots are represented by the reply values the supervisor loop produces; the
`Start` command additionally carries the wall-clock time used for the
`Starting` status write it may trigger. -/
inductive ControlCommand where
  | Shutdown
  | Kill
  | Start (service_identifier : String) (t : Nat)
  | Stop (service_identifier : String)
  | Status (service_identifier : String)
  | Intercom (service_identifier : String)
  deriving DecidableEq, Repr

/-- Values sent back through the reply one-shots by the supervisor loop. -/
inductive WReply where
  | unitReply (r : Except WatchdogError Unit)
  | statusReply (r : Except WatchdogError StatusReport)
  | intercomReply (r : Except WatchdogError Nat)

/-- `Watchdog::watchdog` (`src/watchdog/mod.rs`): the supervisor loop over
the received command sequence. `Shutdown` and `Kill` break the loop; the
other commands dispatch into the aggregate and push a reply; when the loop
ends — by break or because the queue yields nothing more — the `finished`
one-shot is notified (the final `Bool`). Result: (replies sent, aggregate
after the loop, fresh-token supply after the loop, finished notified). -/
def watchdogRun :
    List (String × ServiceManager) → Nat → List ControlCommand →
      List WReply × List (String × ServiceManager) × Nat × Bool
  | fields, supply, [] => ([], fields, supply, true)
  | fields, supply, ControlCommand.Shutdown :: _ => ([], fields, supply, true)
  | fields, supply, ControlCommand.Kill :: _ => ([], fields, supply, true)
  | fields, supply, ControlCommand.Start service_identifier t :: rest =>
      let r := organixStart fields service_identifier t supply
      let k := watchdogRun r.2.1 r.2.2 rest
      (WReply.unitReply r.1 :: k.1, k.2)
  | fields, supply, ControlCommand.Stop service_identifier :: rest =>
      let r := organixStop fields service_identifier
      let k := watchdogRun r.2 supply rest
      (WReply.unitReply r.1 :: k.1, k.2)
  | fields, supply, ControlCommand.Status service_identifier :: rest =>
      let k := watchdogRun fields supply rest
      (WReply.statusReply (organixStatus fields service_identifier) :: k.1, k.2)
  | fields, supply, ControlCommand.Intercom service_identifier :: rest =>
      let k := watchdogRun fields supply rest
      (WReply.intercomReply (organixIntercoms fields service_identifier) :: k.1, k.2)

/-- The supervisor command queue as seen by a `WatchdogQuery` clone: the
pending commands and whether the receiver side is gone (`closed`). -/
structure CommandQueue where
  buffer : List ControlCommand
  closed : Bool
  deriving DecidableEq, Repr

/-- `mpsc::Sender::send` on the command queue: fails exactly when the
receiver is gone, leaving the queue unchanged; otherwise enqueues. (A full
bounded queue suspends the sender but never fails; suspension is not
modelled.) Result: (queue afterwards, `is_err`). -/
def CommandQueue.sendRaw (q : CommandQueue) (cc : ControlCommand) : CommandQueue × Bool :=
  if q.closed then (q, true)
  else ({ q with buffer := q.buffer ++ [cc] }, false)

/-- `WatchdogQuery::send` (`src/watchdog/control_command.rs`): the enqueue
error is silently discarded ("ignore the case where the watchdog is already
gone"); the caller gets no error channel at all. -/
def WatchdogQuery.send (q : CommandQueue) (cc : ControlCommand) : CommandQueue :=
  (q.sendRaw cc).1

/-- `WatchdogQuery::shutdown` (`src/watchdog/control_command.rs`). -/
def WatchdogQuery.shutdown (q : CommandQueue) : CommandQueue :=
  WatchdogQuery.send q ControlCommand.Shutdown

/-- `WatchdogQuery::kill` (`src/watchdog/control_command.rs`). -/
def WatchdogQuery.kill (q : CommandQueue) : CommandQueue :=
  WatchdogQuery.send q ControlCommand.Kill

/-- Outcome of one turn of the watcher's `select!` control arm
(`src/service/mod.rs`, `ServiceRuntime::start`): the status value written,
whether the user task is aborted, and whether the watcher exits its loop. -/
structure WatcherOutcome where
  write : Status
  abort : Bool
  exitLoop : Bool
  deriving DecidableEq, Repr

/-- The watcher's match on `control.updated()` (`src/service/mod.rs`):
`Some(Shutdown)` marks `ShuttingDown` and continues; `None` and `Some(Kill)`
share one arm — mark `Shutdown`, abort the user task, break. `t` is the
wall-clock time of the write. -/
def watcherControl (t : Nat) : Option Control → WatcherOutcome
  | some Control.Shutdown =>
      { write := Status.ShuttingDown t, abort := false, exitLoop := false }
  | some Control.Kill =>
      { write := Status.Shutdown t, abort := true, exitLoop := true }
  | none =>
      { write := Status.Shutdown t, abort := true, exitLoop := true }

/-- Where one activation stands: `init` — `runtime()` has succeeded but
`ServiceRuntime::start` has not run; `spawned` — `start` wrote `Starting`
and spawned the watcher, which has not run yet; `looping` — the watcher
wrote `Started` and is in its `select!` loop; `exited` — the watcher broke
out of the loop. -/
inductive ActPhase where
  | init
  | spawned
  | looping
  | exited
  deriving DecidableEq, Repr

/-- The decision taken by the status read at the head of
`ServiceManager::shutdown` (`src/service/mod.rs`, the `match` on
`self.status.status()`): a `Control::Shutdown` is sent only when the read
returned `Starting` or `Started`. -/
def sendsOnShutdown : Status → Bool
  | Status.Starting _ | Status.Started _ => true
  | Status.Shutdown _ | Status.ShuttingDown _ => false

/-- State of one activation together with the cells the supervisor shares
with it: the status cell, the control cell's slot, whether the manager
(the `Controller` writer) has been dropped, whether the user task has been
aborted, and two in-flight flags — `pendingStop` records a
`ServiceManager::shutdown` call whose status read already chose to send
`Control::Shutdown` but whose send has not executed yet, `pendingKill` the
same for the `Kill` of `Drop for ServiceManager`. The watcher runs on
another thread, so it can interleave between such a read and its send. -/
structure ActState where
  status : Status
  slot : Option Control
  writerDropped : Bool
  pendingStop : Bool
  pendingKill : Bool
  phase : ActPhase
  aborted : Bool
  deriving DecidableEq, Repr

/-- One atomic step of an activation interleaved with the supervisor, with
the status value written by the step (if any) as its label. The watcher
steps follow `ServiceRuntime::start` (`src/service/mod.rs`); the supervisor
steps follow `ServiceManager::shutdown` and `Drop for ServiceManager`, each
split into its status read and its control-cell send, because the watcher
(on the watchdog pool) can run between the two. The manager is borrowed
mutably for the whole of `shutdown()` and of `drop()`, so those two calls
do not overlap each other. -/
inductive ActStep : ActState → Option Status → ActState → Prop where
  /-- `ServiceRuntime::start` begins: `status.update(Status::starting())`. -/
  | startRun (s : ActState) (t : Nat) :
      s.phase = ActPhase.init →
      ActStep s (some (Status.Starting t))
        { s with status := Status.Starting t, phase := ActPhase.spawned }
  /-- The spawned watcher's first action: `status.update(Status::started())`. -/
  | watcherEnter (s : ActState) (t : Nat) :
      s.phase = ActPhase.spawned →
      ActStep s (some (Status.Started t))
        { s with status := Status.Started t, phase := ActPhase.looping }
  /-- The `select!` join arm: the user task finished (or panicked); mark
  `Shutdown` and break. -/
  | joinDone (s : ActState) (t : Nat) :
      s.phase = ActPhase.looping →
      ActStep s (some (Status.Shutdown t))
        { s with status := Status.Shutdown t, phase := ActPhase.exited }
  /-- The `select!` control arm consuming `Some(Shutdown)`: mark
  `ShuttingDown`, stay in the loop. -/
  | ctrlShutdown (s : ActState) (t : Nat) :
      s.phase = ActPhase.looping → s.slot = some Control.Shutdown →
      ActStep s (some (Status.ShuttingDown t))
        { s with status := Status.ShuttingDown t, slot := none }
  /-- The `select!` control arm consuming `Some(Kill)`: mark `Shutdown`,
  abort the user task, break. -/
  | ctrlKill (s : ActState) (t : Nat) :
      s.phase = ActPhase.looping → s.slot = some Control.Kill →
      ActStep s (some (Status.Shutdown t))
        { s with status := Status.Shutdown t, slot := none, aborted := true, phase := ActPhase.exited }
  /-- The `select!` control arm receiving `None` (the `Controller` was
  dropped): same arm as `Kill`. -/
  | ctrlNone (s : ActState) (t : Nat) :
      s.phase = ActPhase.looping → s.slot = none → s.writerDropped = true →
      ActStep s (some (Status.Shutdown t))
        { s with status := Status.Shutdown t, aborted := true, phase := ActPhase.exited }
  /-- The status read of `ServiceManager::shutdown` returns `Starting` or
  `Started`: the call commits to sending `Control::Shutdown`. -/
  | stopRead (s : ActState) :
      s.writerDropped = false → s.pendingStop = false → s.pendingKill = false →
      sendsOnShutdown s.status = true →
      ActStep s none { s with pendingStop := true }
  /-- The committed `controller.send(Control::Shutdown)` executes; by now
  the watcher may have moved the status on. -/
  | stopSend (s : ActState) :
      s.writerDropped = false → s.pendingStop = true →
      ActStep s none
        { s with slot := Control.put s.slot Control.Shutdown, pendingStop := false }
  /-- The status read of `Drop for ServiceManager` returns a non-`Shutdown`
  status: the drop commits to sending `Control::Kill`. -/
  | dropKillRead (s : ActState) :
      s.writerDropped = false → s.pendingStop = false → s.pendingKill = false →
      s.status.is_shutdown = false →
      ActStep s none { s with pendingKill := true }
  /-- The committed `controller.send(Control::Kill)` of the drop executes. -/
  | dropKillSend (s : ActState) :
      s.pendingKill = true →
      ActStep s none
        { s with slot := Control.put s.slot Control.Kill, pendingKill := false }
  /-- The drop completes: the `Controller` writer disappears. -/
  | dropWriter (s : ActState) :
      s.writerDropped = false → s.pendingStop = false → s.pendingKill = false →
      ActStep s none { s with writerDropped := true }

/-- A fresh activation, as produced by a successful `ServiceManager::runtime`
call: the status cell reads `Shutdown` and nothing has run yet. The control
slot may hold a stale command left over from an earlier activation. -/
def ActInit (s : ActState) : Prop :=
  s.phase = ActPhase.init ∧ s.status.is_shutdown = true

/-- Reachability along activation steps. -/
def ActReach (a b : ActState) : Prop :=
  Relation.ReflTransGen (fun x y => ∃ l, ActStep x l y) a b

/-- The status DAG of the spec (§3): `Shutdown → Starting → Started →
ShuttingDown → Shutdown`, plus direct `Starting/Started → Shutdown` on
crash or kill. -/
def dagEdge : Status → Status → Bool
  | Status.Shutdown _, Status.Starting _ => true
  | Status.Starting _, Status.Started _ => true
  | Status.Starting _, Status.Shutdown _ => true
  | Status.Started _, Status.ShuttingDown _ => true
  | Status.Started _, Status.Shutdown _ => true
  | Status.ShuttingDown _, Status.Shutdown _ => true
  | _, _ => false

/-- Inductive invariant of an activation: the status kind is pinned by the
phase of the watcher. -/
def ActInv (s : ActState) : Prop :=
  (s.phase = ActPhase.init → s.status.is_shutdown = true) ∧
  (s.phase = ActPhase.spawned → ∃ t, s.status = Status.Starting t) ∧
  (s.phase = ActPhase.looping →
    (∃ t, s.status = Status.Started t) ∨ (∃ t, s.status = Status.ShuttingDown t))

/-- Modelled from the spec (§4.6); `service/intercom.rs` is not in the source
tree. The environment an `Intercom<T>` façade sends into: the target's
current sender token (what an `Intercom` command would fetch now) and which
sender tokens are still connected. -/
structure IntercomWorld where
  current : Nat
  live : Nat → Bool

/-- Modelled from the spec (§4.6): the `Intercom<T>` façade — the target's
identifier and the cached sender, `None` until the first send
(`WatchdogQuery::intercom` builds it with `Intercom::new(self.clone())`,
`src/watchdog/control_command.rs`). -/
structure IntercomFacade where
  service_identifier : String
  connection : Option Nat

/-- Modelled from the spec (§4.6, §7): `Intercom::send`. On first send, fetch
the current sender, cache it, and send through it; a failure of this freshly
fetched sender is reported with `retry_attempted = false` (§7: a "single
transient failure (fetch-on-first-send)"). On a cached sender reporting
`Disconnected`, refetch exactly once and retry that send; if the retry also
fails the error is `CannotConnectToService` with `retry_attempted = true`.
Result: (façade afterwards, send result, number of fetches performed). -/
def Intercom.send (w : IntercomWorld) (ic : IntercomFacade) :
    IntercomFacade × Except WatchdogError Unit × Nat :=
  match ic.connection with
  | none =>
      let s := w.current
      if w.live s then
        ({ ic with connection := some s }, Except.ok (), 1)
      else
        ({ ic with connection := some s },
          Except.error (WatchdogError.CannotConnectToService ic.service_identifier false), 1)
  | some s =>
      if w.live s then (ic, Except.ok (), 0)
      else
        let s2 := w.current
        if w.live s2 then
          ({ ic with connection := some s2 }, Except.ok (), 1)
        else
          ({ ic with connection := some s2 },
            Except.error (WatchdogError.CannotConnectToService ic.service_identifier true), 1)



/-- The matching arm of the generated `Organix::start` for one field
(`organix-derive/src/gen.rs`): run `runtime(watchdog_query)`; on `Ok(rt)`
reply `Ok(rt.start())` (which writes `Starting`); on `Err(source)` reply
`CannotStartService`. -/
def startOne (service_identifier : String) (m : ServiceManager) (t supply : Nat) :
    Except WatchdogError Unit × ServiceManager × Nat :=
  match m.runtime supply with
  | (Except.ok _, m', supply') =>
      (Except.ok (), { m' with status := Status.Starting t }, supply')
  | (Except.error source, m', supply') =>
      (Except.error (WatchdogError.CannotStartService service_identifier source), m', supply')

-- ===== THEOREMS =====

/-- C1: for every service manager whose current status is not `Shutdown`,
`runtime(query)` returns `CannotStart{status}` carrying that status, and the
manager — status, stored intercom sender, stored statistics handle, restart
count — is unchanged by the failed call. -/
theorem runtime_refusal_preserves_manager (m : ServiceManager) (supply : Nat)
    (h : m.status.is_shutdown = false) :
    (m.runtime supply).1 = Except.error (ServiceError.CannotStart m.status) ∧
      (m.runtime supply).2.1 = m := by
  unfold ServiceManager.runtime
  simp [h]

/-- Witness for C1 at a concrete manager whose status is `Starting`. -/
theorem runtime_refusal_preserves_manager_witness :
    (ServiceManager.runtime
        { identifier := "ping", intercom_sender := 4, intercom_stats := 4,
          started := 2, status := Status.Starting 7, controller := none } 9).1 =
      Except.error (ServiceError.CannotStart (Status.Starting 7)) ∧
    (ServiceManager.runtime
        { identifier := "ping", intercom_sender := 4, intercom_stats := 4,
          started := 2, status := Status.Starting 7, controller := none } 9).2.1 =
      { identifier := "ping", intercom_sender := 4, intercom_stats := 4,
        started := 2, status := Status.Starting 7, controller := none } :=
  runtime_refusal_preserves_manager _ 9 rfl

theorem mgrRun_started (ops : List MgrOp) :
    ∀ m : ServiceManager, (mgrRun m ops).started = m.started + mgrCountStarts m ops := by
  induction ops with
  | nil => intro m; simp [mgrRun, mgrCountStarts]
  | cons op ops ih =>
      intro m
      cases op with
      | intercomOp => rw [mgrRun, mgrCountStarts, ih]; simp [mgrStep, mgrStartWeight]
      | statusOp => rw [mgrRun, mgrCountStarts, ih]; simp [mgrStep, mgrStartWeight]
      | shutdownOp =>
          rw [mgrRun, mgrCountStarts, ih]
          simp [mgrStep, mgrStartWeight, ServiceManager.shutdown]
      | watcherWrite s => rw [mgrRun, mgrCountStarts, ih]; simp [mgrStep, mgrStartWeight]
      | runtimeOp supply =>
          rw [mgrRun, mgrCountStarts, ih]
          by_cases h : m.status.is_shutdown
          · simp [mgrStep, mgrStartWeight, ServiceManager.runtime, h]
            omega
          · simp [mgrStep, mgrStartWeight, ServiceManager.runtime, h]

/-- C2: the restart counter starts at 0 on construction, is incremented
exactly once by each successful `runtime()` call and by nothing else, and
the report returned by `status()` carries exactly this counter: after any
trace of manager operations starting from `with_runtime`, the reported
count equals the number of successful starts in the trace. -/
theorem restart_count_counts_successful_starts
    (identifier : String) (t chan : Nat) (ops : List MgrOp) :
    (ServiceManager.with_runtime identifier t chan).started = 0 ∧
      (mgrRun (ServiceManager.with_runtime identifier t chan) ops).status_report.started =
        mgrCountStarts (ServiceManager.with_runtime identifier t chan) ops := by
  refine ⟨rfl, ?_⟩
  rw [ServiceManager.status_report, mgrRun_started]
  simp [ServiceManager.with_runtime]

theorem organixStartGo_not_mem (service_identifier : String) (t : Nat) (all : List String)
    (fields : List (String × ServiceManager)) (supply : Nat)
    (h : service_identifier ∉ fields.map Prod.fst) :
    organixStartGo service_identifier t all fields supply =
      (Except.error (WatchdogError.UnknownService service_identifier all), fields, supply) := by
  induction fields generalizing supply with
  | nil => rfl
  | cons f rest ih =>
      obtain ⟨name, m⟩ := f
      have hne : ¬name = service_identifier := by
        intro e; exact h (by simp [e])
      have hrest : service_identifier ∉ rest.map Prod.fst := by
        intro e; exact h (by simp [e])
      simp [organixStartGo, hne, ih supply hrest]

theorem organixStopGo_not_mem (service_identifier : String) (all : List String)
    (fields : List (String × ServiceManager))
    (h : service_identifier ∉ fields.map Prod.fst) :
    organixStopGo service_identifier all fields =
      (Except.error (WatchdogError.UnknownService service_identifier all), fields) := by
  induction fields with
  | nil => rfl
  | cons f rest ih =>
      obtain ⟨name, m⟩ := f
      have hne : ¬name = service_identifier := by
        intro e; exact h (by simp [e])
      have hrest : service_identifier ∉ rest.map Prod.fst := by
        intro e; exact h (by simp [e])
      simp [organixStopGo, hne, ih hrest]

theorem organixStatusGo_not_mem (service_identifier : String) (all : List String)
    (fields : List (String × ServiceManager))
    (h : service_identifier ∉ fields.map Prod.fst) :
    organixStatusGo service_identifier all fields =
      Except.error (WatchdogError.UnknownService service_identifier all) := by
  induction fields with
  | nil => rfl
  | cons f rest ih =>
      obtain ⟨name, m⟩ := f
      have hne : ¬name = service_identifier := by
        intro e; exact h (by simp [e])
      have hrest : service_identifier ∉ rest.map Prod.fst := by
        intro e; exact h (by simp [e])
      simp [organixStatusGo, hne, ih hrest]

theorem organixIntercomsGo_not_mem (service_identifier : String) (all : List String)
    (fields : List (String × ServiceManager))
    (h : service_identifier ∉ fields.map Prod.fst) :
    organixIntercomsGo service_identifier all fields =
      Except.error (WatchdogError.UnknownService service_identifier all) := by
  induction fields with
  | nil => rfl
  | cons f rest ih =>
      obtain ⟨name, m⟩ := f
      have hne : ¬name = service_identifier := by
        intro e; exact h (by simp [e])
      have hrest : service_identifier ∉ rest.map Prod.fst := by
        intro e; exact h (by simp [e])
      simp [organixIntercomsGo, hne, ih hrest]

/-- C3: for every identifier that is not one of the aggregate's declared
identifiers, `start`, `stop`, `status` and `intercoms` all return
`UnknownService{identifier, possible_values}`, where `possible_values` is
exactly the enumeration of the aggregate's declared field names in
declaration order. -/
theorem unknown_identifier_rejected_with_possible_values
    (fields : List (String × ServiceManager)) (service_identifier : String)
    (t supply : Nat)
    (h : service_identifier ∉ possible_values fields) :
    (organixStart fields service_identifier t supply).1 =
        Except.error
          (WatchdogError.UnknownService service_identifier (possible_values fields)) ∧
      (organixStop fields service_identifier).1 =
        Except.error
          (WatchdogError.UnknownService service_identifier (possible_values fields)) ∧
      organixStatus fields service_identifier =
        Except.error
          (WatchdogError.UnknownService service_identifier (possible_values fields)) ∧
      organixIntercoms fields service_identifier =
        Except.error
          (WatchdogError.UnknownService service_identifier (possible_values fields)) ∧
      possible_values fields = fields.map Prod.fst := by
  refine ⟨?_, ?_, ?_, ?_, rfl⟩
  · rw [organixStart, organixStartGo_not_mem service_identifier t _ _ _ h]
  · rw [organixStop, organixStopGo_not_mem service_identifier _ _ h]
  · rw [organixStatus, organixStatusGo_not_mem service_identifier _ _ h]
  · rw [organixIntercoms, organixIntercomsGo_not_mem service_identifier _ _ h]

/-- Witness for C3 on a two-service aggregate and the identifier of
scenario S3. -/
theorem unknown_identifier_rejected_with_possible_values_witness :
    (organixStart
        [("ping", ServiceManager.with_runtime "ping" 0 0),
         ("pong", ServiceManager.with_runtime "pong" 0 1)] "unregistered" 2 5).1 =
      Except.error
        (WatchdogError.UnknownService "unregistered" ["ping", "pong"]) :=
  (unknown_identifier_rejected_with_possible_values
    [("ping", ServiceManager.with_runtime "ping" 0 0),
     ("pong", ServiceManager.with_runtime "pong" 0 1)] "unregistered" 2 5
    (by simp [possible_values])).1

theorem organixStopGo_mem (service_identifier : String) (all : List String)
    (fields : List (String × ServiceManager))
    (h : service_identifier ∈ fields.map Prod.fst) :
    (organixStopGo service_identifier all fields).1 = Except.ok () := by
  induction fields with
  | nil => simp at h
  | cons f rest ih =>
      obtain ⟨name, m⟩ := f
      by_cases hne : name = service_identifier
      · simp [organixStopGo, hne]
      · have hrest : service_identifier ∈ rest.map Prod.fst := by
          simp only [List.map_cons, List.mem_cons] at h
          rcases h with h1 | h1
          · exact absurd h1.symm hne
          · exact h1
        simp [organixStopGo, hne, ih hrest]

theorem organixStopGo_first_match (service_identifier : String) (all : List String)
    (pre post : List (String × ServiceManager)) (m : ServiceManager)
    (hpre : service_identifier ∉ pre.map Prod.fst) :
    organixStopGo service_identifier all (pre ++ (service_identifier, m) :: post) =
      (Except.ok (), pre ++ (service_identifier, m.shutdown) :: post) := by
  induction pre with
  | nil => simp [organixStopGo]
  | cons f rest ih =>
      obtain ⟨name, m0⟩ := f
      have hne : ¬name = service_identifier := by
        intro e; exact hpre (by simp [e])
      have hrest : service_identifier ∉ rest.map Prod.fst := by
        intro e; exact hpre (by simp [e])
      simp [organixStopGo, hne, ih hrest]

theorem shutdown_noop_of_not_running (m : ServiceManager)
    (h : shutdownSignal m.status m.controller = m.controller) :
    m.shutdown = m := by
  rw [ServiceManager.shutdown, h]

/-- C9: `stop` on a declared identifier always replies `Ok(())`, whatever
the service's status; and when the addressed service is already `Shutdown`
or `ShuttingDown` the call is a silent no-op — success is reported and the
aggregate is left exactly as it was. -/
theorem stop_declared_service_always_ok :
    (∀ (fields : List (String × ServiceManager)) (service_identifier : String),
        service_identifier ∈ possible_values fields →
        (organixStop fields service_identifier).1 = Except.ok ()) ∧
      (∀ (pre post : List (String × ServiceManager)) (m : ServiceManager)
          (service_identifier : String),
        service_identifier ∉ possible_values pre →
        (m.status.is_shutdown = true ∨ (∃ t, m.status = Status.ShuttingDown t)) →
        organixStop (pre ++ (service_identifier, m) :: post) service_identifier =
          (Except.ok (), pre ++ (service_identifier, m) :: post)) := by
  constructor
  · intro fields service_identifier h
    exact organixStopGo_mem service_identifier _ fields h
  · intro pre post m service_identifier hpre hstatus
    rw [organixStop, organixStopGo_first_match service_identifier _ pre post m hpre]
    have hm : m.shutdown = m := by
      apply shutdown_noop_of_not_running
      rcases hstatus with h1 | ⟨t, h1⟩
      · cases hs : m.status with
        | Shutdown u => simp [shutdownSignal]
        | Starting u => rw [hs] at h1; simp [Status.is_shutdown] at h1
        | Started u => rw [hs] at h1; simp [Status.is_shutdown] at h1
        | ShuttingDown u => simp [shutdownSignal]
      · rw [h1]; rfl
    rw [hm]

/-- Witness for C9: stopping an already shut-down service in a concrete
two-service aggregate succeeds and changes nothing. -/
theorem stop_declared_service_always_ok_witness :
    (organixStop
        [("ping", ServiceManager.with_runtime "ping" 0 0),
         ("pong", ServiceManager.with_runtime "pong" 0 1)] "pong").1 = Except.ok () ∧
      organixStop
          [("ping", ServiceManager.with_runtime "ping" 0 0),
           ("pong", ServiceManager.with_runtime "pong" 0 1)] "pong" =
        (Except.ok (),
          [("ping", ServiceManager.with_runtime "ping" 0 0),
           ("pong", ServiceManager.with_runtime "pong" 0 1)]) := by
  constructor
  · exact stop_declared_service_always_ok.1
      [("ping", ServiceManager.with_runtime "ping" 0 0),
       ("pong", ServiceManager.with_runtime "pong" 0 1)] "pong" (by simp [possible_values])
  · exact stop_declared_service_always_ok.2
      [("ping", ServiceManager.with_runtime "ping" 0 0)] [] (ServiceManager.with_runtime "pong" 0 1)
      "pong" (by simp [possible_values]) (Or.inl rfl)

/-- C4 counterexample: the generated dispatch matches on the aggregate's
field name, not on `S::SERVICE_IDENTIFIER`. In the aggregate of the crate's
own front-page example — field `heart_beat` holding the manager of the
service whose `SERVICE_IDENTIFIER` is `"heart-beat"` — `start<S>()`
addresses `"heart-beat"` and is answered `UnknownService`, although the
service is declared, not skipped, and startable (`status = Shutdown`). -/
theorem start_by_service_identifier_counterexample :
    (ServiceManager.with_runtime "heart-beat" 0 0).identifier = "heart-beat" ∧
      (ServiceManager.with_runtime "heart-beat" 0 0).status.is_shutdown = true ∧
      (organixStart [("heart_beat", ServiceManager.with_runtime "heart-beat" 0 0)]
          "heart-beat" 1 1).1 =
        Except.error (WatchdogError.UnknownService "heart-beat" ["heart_beat"]) :=
  ⟨rfl, rfl, rfl⟩

theorem organixStartGo_first_match (service_identifier : String) (t : Nat) (all : List String)
    (pre post : List (String × ServiceManager)) (m : ServiceManager) (supply : Nat)
    (hpre : service_identifier ∉ pre.map Prod.fst) :
    organixStartGo service_identifier t all (pre ++ (service_identifier, m) :: post) supply =
      ((startOne service_identifier m t supply).1,
        pre ++ (service_identifier, (startOne service_identifier m t supply).2.1) :: post,
        (startOne service_identifier m t supply).2.2) := by
  induction pre generalizing supply with
  | nil =>
      rw [List.nil_append, organixStartGo, startOne]
      rcases hr : m.runtime supply with ⟨r, m', supply'⟩
      cases r <;> simp
  | cons f rest ih =>
      obtain ⟨name, m0⟩ := f
      have hne : ¬name = service_identifier := by
        intro e; exact hpre (by simp [e])
      have hrest : service_identifier ∉ rest.map Prod.fst := by
        intro e; exact hpre (by simp [e])
      simp [organixStartGo, hne, ih supply hrest]

theorem organixStatusGo_first_match (service_identifier : String) (all : List String)
    (pre post : List (String × ServiceManager)) (m : ServiceManager)
    (hpre : service_identifier ∉ pre.map Prod.fst) :
    organixStatusGo service_identifier all (pre ++ (service_identifier, m) :: post) =
      Except.ok m.status_report := by
  induction pre with
  | nil => simp [organixStatusGo]
  | cons f rest ih =>
      obtain ⟨name, m0⟩ := f
      have hne : ¬name = service_identifier := by
        intro e; exact hpre (by simp [e])
      have hrest : service_identifier ∉ rest.map Prod.fst := by
        intro e; exact hpre (by simp [e])
      simp [organixStatusGo, hne, ih hrest]

theorem organixIntercomsGo_first_match (service_identifier : String) (all : List String)
    (pre post : List (String × ServiceManager)) (m : ServiceManager)
    (hpre : service_identifier ∉ pre.map Prod.fst) :
    organixIntercomsGo service_identifier all (pre ++ (service_identifier, m) :: post) =
      Except.ok m.intercom := by
  induction pre with
  | nil => simp [organixIntercomsGo]
  | cons f rest ih =>
      obtain ⟨name, m0⟩ := f
      have hne : ¬name = service_identifier := by
        intro e; exact hpre (by simp [e])
      have hrest : service_identifier ∉ rest.map Prod.fst := by
        intro e; exact hpre (by simp [e])
      simp [organixIntercomsGo, hne, ih hrest]

theorem startOne_not_unknown (m : ServiceManager) (t supply : Nat)
    (sid service_identifier : String) (pv : List String) :
    (startOne sid m t supply).1 ≠
      Except.error (WatchdogError.UnknownService service_identifier pv) := by
  rw [startOne]
  rcases hr : m.runtime supply with ⟨r, m', supply'⟩
  cases r <;> simp

/-- C4 (amended): dispatch is by the aggregate's declared field name. For
every service declared (and not skipped) in the aggregate under a field
name equal to its `SERVICE_IDENTIFIER` — the convention every aggregate in
the crate's tests and examples follows — the `start`, `stop`, `status` and
`intercom` commands addressed by that identifier reach exactly that
service's manager, and `start` never replies `UnknownService`. -/
theorem declared_service_dispatched_to_own_manager
    (pre post : List (String × ServiceManager)) (m : ServiceManager)
    (t supply : Nat)
    (hpre : m.identifier ∉ possible_values pre) :
    organixStart (pre ++ (m.identifier, m) :: post) m.identifier t supply =
        ((startOne m.identifier m t supply).1,
          pre ++ (m.identifier, (startOne m.identifier m t supply).2.1) :: post,
          (startOne m.identifier m t supply).2.2) ∧
      (∀ (ids : String) (pv : List String),
        (organixStart (pre ++ (m.identifier, m) :: post) m.identifier t supply).1 ≠
          Except.error (WatchdogError.UnknownService ids pv)) ∧
      organixStop (pre ++ (m.identifier, m) :: post) m.identifier =
        (Except.ok (), pre ++ (m.identifier, m.shutdown) :: post) ∧
      organixStatus (pre ++ (m.identifier, m) :: post) m.identifier =
        Except.ok m.status_report ∧
      organixIntercoms (pre ++ (m.identifier, m) :: post) m.identifier =
        Except.ok m.intercom := by
  refine ⟨?_, ?_, ?_, ?_, ?_⟩
  · exact organixStartGo_first_match m.identifier t _ pre post m supply hpre
  · intro ids pv
    rw [organixStart, organixStartGo_first_match m.identifier t _ pre post m supply hpre]
    exact startOne_not_unknown m t supply m.identifier ids pv
  · exact organixStopGo_first_match m.identifier _ pre post m hpre
  · exact organixStatusGo_first_match m.identifier _ pre post m hpre
  · exact organixIntercomsGo_first_match m.identifier _ pre post m hpre

/-- Witness for the amended C4 on the ping/pong aggregate: `start` on
`"pong"`, declared second, is dispatched to the `pong` manager and starts
it. -/
theorem declared_service_dispatched_to_own_manager_witness :
    (organixStart
        [("ping", ServiceManager.with_runtime "ping" 0 0),
         ("pong", ServiceManager.with_runtime "pong" 0 1)] "pong" 2 5).1 =
      Except.ok () :=
  (declared_service_dispatched_to_own_manager
      [("ping", ServiceManager.with_runtime "ping" 0 0)] []
      (ServiceManager.with_runtime "pong" 0 1) 2 5
      (by simp [possible_values, ServiceManager.with_runtime])).1 ▸ rfl

theorem watchdogRun_shutdown_eq_kill :
    ∀ (pre : List ControlCommand) (fields : List (String × ServiceManager))
      (supply : Nat) (rest : List ControlCommand),
      watchdogRun fields supply (pre ++ ControlCommand.Shutdown :: rest) =
        watchdogRun fields supply (pre ++ ControlCommand.Kill :: rest)
  | [], _, _, _ => rfl
  | c :: pre, fields, supply, rest => by
      cases c with
      | Shutdown => rfl
      | Kill => rfl
      | Start service_identifier t =>
          simp only [List.cons_append, watchdogRun, List.append_eq]
          rw [watchdogRun_shutdown_eq_kill pre]
      | Stop service_identifier =>
          simp only [List.cons_append, watchdogRun, List.append_eq]
          rw [watchdogRun_shutdown_eq_kill pre]
      | Status service_identifier =>
          simp only [List.cons_append, watchdogRun, List.append_eq]
          rw [watchdogRun_shutdown_eq_kill pre]
      | Intercom service_identifier =>
          simp only [List.cons_append, watchdogRun, List.append_eq]
          rw [watchdogRun_shutdown_eq_kill pre]

/-- C6: on any command sequence, the supervisor behaves identically on
`Shutdown` and on `Kill`; on receiving either it terminates the loop
without dispatching anything — no replies are produced, the aggregate and
the fresh-token supply are untouched, the rest of the queue is never read —
and the `finished` one-shot is notified. -/
theorem supervisor_shutdown_equals_kill
    (fields : List (String × ServiceManager)) (supply : Nat)
    (pre rest : List ControlCommand) :
    watchdogRun fields supply (pre ++ ControlCommand.Shutdown :: rest) =
        watchdogRun fields supply (pre ++ ControlCommand.Kill :: rest) ∧
      watchdogRun fields supply (ControlCommand.Shutdown :: rest) =
        ([], fields, supply, true) ∧
      watchdogRun fields supply (ControlCommand.Kill :: rest) =
        ([], fields, supply, true) :=
  ⟨watchdogRun_shutdown_eq_kill pre fields supply rest, rfl, rfl⟩

/-- C7: in the watcher's `select!` control arm, `None` (the control writer
was dropped) lands in the same match arm as an explicit `Kill`: mark the
status `Shutdown`, abort the user task, exit the loop. -/
theorem control_none_equals_kill (t : Nat) :
    watcherControl t none = watcherControl t (some Control.Kill) ∧
      watcherControl t none =
        { write := Status.Shutdown t, abort := true, exitLoop := true } :=
  ⟨rfl, rfl⟩

theorem actInit_inv {s : ActState} (h : ActInit s) : ActInv s := by
  obtain ⟨hphase, hstatus⟩ := h
  refine ⟨fun _ => hstatus, ?_, ?_⟩
  · intro hp; rw [hphase] at hp; simp at hp
  · intro hp; rw [hphase] at hp; simp at hp

theorem actInv_step {s s' : ActState} {l : Option Status}
    (hinv : ActInv s) (hstep : ActStep s l s') : ActInv s' := by
  obtain ⟨h1, h2, h3⟩ := hinv
  cases hstep with
  | startRun t hphase =>
      refine ⟨?_, ?_, ?_⟩
      · intro hp; simp at hp
      · intro _; exact ⟨t, rfl⟩
      · intro hp; simp at hp
  | watcherEnter t hphase =>
      refine ⟨?_, ?_, ?_⟩
      · intro hp; simp at hp
      · intro hp; simp at hp
      · intro _; exact Or.inl ⟨t, rfl⟩
  | joinDone t hphase =>
      refine ⟨?_, ?_, ?_⟩
      · intro hp; simp at hp
      · intro hp; simp at hp
      · intro hp; simp at hp
  | ctrlShutdown t hphase hslot =>
      refine ⟨?_, ?_, ?_⟩
      · intro hp; simp at hp; rw [hphase] at hp; simp at hp
      · intro hp; simp at hp; rw [hphase] at hp; simp at hp
      · intro _; exact Or.inr ⟨t, rfl⟩
  | ctrlKill t hphase hslot =>
      refine ⟨?_, ?_, ?_⟩
      · intro hp; simp at hp
      · intro hp; simp at hp
      · intro hp; simp at hp
  | ctrlNone t hphase hslot hwd =>
      refine ⟨?_, ?_, ?_⟩
      · intro hp; simp at hp
      · intro hp; simp at hp
      · intro hp; simp at hp
  | stopRead hwd hps hpk hsend =>
      refine ⟨?_, ?_, ?_⟩
      · intro hp; simp at hp; exact h1 hp
      · intro hp; simp at hp; exact h2 hp
      · intro hp; simp at hp; exact h3 hp
  | stopSend hwd hps =>
      refine ⟨?_, ?_, ?_⟩
      · intro hp; simp at hp; exact h1 hp
      · intro hp; simp at hp; exact h2 hp
      · intro hp; simp at hp; exact h3 hp
  | dropKillRead hwd hps hpk hst =>
      refine ⟨?_, ?_, ?_⟩
      · intro hp; simp at hp; exact h1 hp
      · intro hp; simp at hp; exact h2 hp
      · intro hp; simp at hp; exact h3 hp
  | dropKillSend hpk =>
      refine ⟨?_, ?_, ?_⟩
      · intro hp; simp at hp; exact h1 hp
      · intro hp; simp at hp; exact h2 hp
      · intro hp; simp at hp; exact h3 hp
  | dropWriter hwd hps hpk =>
      refine ⟨?_, ?_, ?_⟩
      · intro hp; simp at hp; exact h1 hp
      · intro hp; simp at hp; exact h2 hp
      · intro hp; simp at hp; exact h3 hp

theorem actReach_inv {a b : ActState} (h : ActReach a b) (ha : ActInv a) : ActInv b := by
  induction h with
  | refl => exact ha
  | tail _ hstep ih =>
      obtain ⟨l, hstep⟩ := hstep
      exact actInv_step ih hstep

theorem actStep_write_dag_or_stutter {s s' : ActState} {w : Status}
    (hinv : ActInv s) (hstep : ActStep s (some w) s') :
    dagEdge s.status w = true ∨
      ∃ u v, s.status = Status.ShuttingDown u ∧ w = Status.ShuttingDown v := by
  obtain ⟨h1, h2, h3⟩ := hinv
  cases hstep with
  | startRun t hphase =>
      have hs := h1 hphase
      cases hst : s.status with
      | Shutdown u => exact Or.inl rfl
      | Starting u => rw [hst] at hs; simp [Status.is_shutdown] at hs
      | Started u => rw [hst] at hs; simp [Status.is_shutdown] at hs
      | ShuttingDown u => rw [hst] at hs; simp [Status.is_shutdown] at hs
  | watcherEnter t hphase =>
      obtain ⟨u, hu⟩ := h2 hphase
      rw [hu]; exact Or.inl rfl
  | joinDone t hphase =>
      rcases h3 hphase with ⟨u, hu⟩ | ⟨u, hu⟩ <;> rw [hu] <;> exact Or.inl rfl
  | ctrlShutdown t hphase hslot =>
      rcases h3 hphase with ⟨u, hu⟩ | ⟨u, hu⟩
      · rw [hu]; exact Or.inl rfl
      · exact Or.inr ⟨u, t, hu, rfl⟩
  | ctrlKill t hphase hslot =>
      rcases h3 hphase with ⟨u, hu⟩ | ⟨u, hu⟩ <;> rw [hu] <;> exact Or.inl rfl
  | ctrlNone t hphase hslot hwd =>
      rcases h3 hphase with ⟨u, hu⟩ | ⟨u, hu⟩ <;> rw [hu] <;> exact Or.inl rfl

/-- C5 counterexample: a status write that is not a DAG edge is reachable.
Two `Stop` commands race the watcher: the second `ServiceManager::shutdown`
reads `Started` before the watcher processes the first `Shutdown` command,
the watcher then marks `ShuttingDown`, and only afterwards does the second
call execute its `controller.send(Control::Shutdown)`; consuming that
duplicate makes the watcher write `ShuttingDown` over `ShuttingDown`
(fresh `since`) — not an edge of the DAG. -/
theorem status_write_not_dag_counterexample :
    ActInit
        { status := Status.Shutdown 0, slot := none, writerDropped := false,
          pendingStop := false, pendingKill := false, phase := ActPhase.init,
          aborted := false } ∧
      ActReach
        { status := Status.Shutdown 0, slot := none, writerDropped := false,
          pendingStop := false, pendingKill := false, phase := ActPhase.init,
          aborted := false }
        { status := Status.ShuttingDown 3, slot := some Control.Shutdown,
          writerDropped := false, pendingStop := false, pendingKill := false,
          phase := ActPhase.looping, aborted := false } ∧
      ActStep
        { status := Status.ShuttingDown 3, slot := some Control.Shutdown,
          writerDropped := false, pendingStop := false, pendingKill := false,
          phase := ActPhase.looping, aborted := false }
        (some (Status.ShuttingDown 4))
        { status := Status.ShuttingDown 4, slot := none, writerDropped := false,
          pendingStop := false, pendingKill := false, phase := ActPhase.looping,
          aborted := false } ∧
      dagEdge (Status.ShuttingDown 3) (Status.ShuttingDown 4) = false := by
  refine ⟨⟨rfl, rfl⟩, ?_, ?_, rfl⟩
  · have h1 : ActReach
        { status := Status.Shutdown 0, slot := none, writerDropped := false,
          pendingStop := false, pendingKill := false, phase := ActPhase.init,
          aborted := false }
        { status := Status.Starting 1, slot := none, writerDropped := false,
          pendingStop := false, pendingKill := false, phase := ActPhase.spawned,
          aborted := false } :=
      Relation.ReflTransGen.single ⟨_, ActStep.startRun _ 1 rfl⟩
    have h2 := Relation.ReflTransGen.tail h1 ⟨_, ActStep.watcherEnter _ 2 rfl⟩
    have h3 := Relation.ReflTransGen.tail h2 ⟨_, ActStep.stopRead _ rfl rfl rfl rfl⟩
    have h4 := Relation.ReflTransGen.tail h3 ⟨_, ActStep.stopSend _ rfl rfl⟩
    have h5 := Relation.ReflTransGen.tail h4 ⟨_, ActStep.stopRead _ rfl rfl rfl rfl⟩
    have h6 := Relation.ReflTransGen.tail h5 ⟨_, ActStep.ctrlShutdown _ 3 rfl rfl⟩
    exact Relation.ReflTransGen.tail h6 ⟨_, ActStep.stopSend _ rfl rfl⟩
  · exact ActStep.ctrlShutdown _ 4 rfl rfl

/-- C5 (amended): in any state reachable from a fresh activation, every
status value written by a step of the core — `ServiceRuntime::start` or the
watcher loop it spawns, interleaved with the supervisor's `shutdown`
requests and the manager's drop at the source's read/send granularity —
either follows an edge of the status DAG (`Shutdown → Starting`,
`Starting → Started`, `Started → ShuttingDown | Shutdown`,
`ShuttingDown → Shutdown`, with `Starting → Shutdown` also admitted) or
re-writes `ShuttingDown` while the status is already `ShuttingDown`, which
happens exactly when the watcher consumes a duplicate `Shutdown` command
that raced the status check of `ServiceManager::shutdown`. In particular
every status update that changes the status kind follows a DAG edge. -/
theorem status_writes_follow_dag_or_stutter (s0 s s' : ActState) (w : Status)
    (h0 : ActInit s0) (hreach : ActReach s0 s) (hstep : ActStep s (some w) s') :
    dagEdge s.status w = true ∨
      ∃ u v, s.status = Status.ShuttingDown u ∧ w = Status.ShuttingDown v :=
  actStep_write_dag_or_stutter (actReach_inv hreach (actInit_inv h0)) hstep

/-- Witness for the amended C5: the first step of a fresh activation writes
`Starting`, a DAG edge out of `Shutdown`. -/
theorem status_writes_follow_dag_or_stutter_witness :
    dagEdge (Status.Shutdown 0) (Status.Starting 1) = true ∨
      ∃ u v, Status.Shutdown 0 = Status.ShuttingDown u ∧
        Status.Starting 1 = Status.ShuttingDown v :=
  status_writes_follow_dag_or_stutter
    { status := Status.Shutdown 0, slot := none, writerDropped := false,
      pendingStop := false, pendingKill := false, phase := ActPhase.init,
      aborted := false }
    { status := Status.Shutdown 0, slot := none, writerDropped := false,
      pendingStop := false, pendingKill := false, phase := ActPhase.init,
      aborted := false }
    { status := Status.Starting 1, slot := none, writerDropped := false,
      pendingStop := false, pendingKill := false, phase := ActPhase.spawned,
      aborted := false }
    (Status.Starting 1) ⟨rfl, rfl⟩ Relation.ReflTransGen.refl
    (ActStep.startRun _ 1 rfl)

/-- C8: an `Intercom<T>` façade's first send fetches (exactly one fetch) and
caches the target's current sender; when a cached sender reports
`Disconnected`, the façade refetches exactly once and retries that send —
succeeding if the refetched sender is live, and returning
`CannotConnectToService{retry_attempted: true}` if the retry also fails. -/
theorem intercom_send_fetch_and_retry (w : IntercomWorld) (ic : IntercomFacade) (s : Nat) :
    ((Intercom.send w { ic with connection := none }).1.connection = some w.current ∧
        (Intercom.send w { ic with connection := none }).2.2 = 1) ∧
      (ic.connection = some s → w.live s = false →
        (Intercom.send w ic).2.2 = 1 ∧
          (Intercom.send w ic).1.connection = some w.current ∧
          (w.live w.current = true → (Intercom.send w ic).2.1 = Except.ok ()) ∧
          (w.live w.current = false →
            (Intercom.send w ic).2.1 =
              Except.error
                (WatchdogError.CannotConnectToService ic.service_identifier true))) := by
  constructor
  · rw [Intercom.send]
    by_cases h : w.live w.current = true
    · simp [h]
    · simp [h]
  · intro hconn hdead
    rw [Intercom.send, hconn]
    simp only [hdead]
    by_cases h : w.live w.current = true
    · simp [h]
    · simp [h]

/-- Witness for C8 at a world where every sender is disconnected: the
cached-sender send refetches once and fails with `retry_attempted = true`. -/
theorem intercom_send_fetch_and_retry_witness :
    (Intercom.send { current := 7, live := fun _ => false }
        { service_identifier := "pong", connection := some 3 }).2.1 =
      Except.error (WatchdogError.CannotConnectToService "pong" true) :=
  (((intercom_send_fetch_and_retry { current := 7, live := fun _ => false }
      { service_identifier := "pong", connection := some 3 } 3).2 rfl rfl).2.2.2) rfl

/-- C10: `WatchdogQuery::shutdown` and `WatchdogQuery::kill` never surface
an error — they return nothing at all — and when the supervisor's command
queue is closed (the supervisor has already exited) the enqueue error is
silently discarded and the call is a no-op: the queue is left exactly as it
was. -/
theorem query_shutdown_kill_never_fail (q : CommandQueue) (h : q.closed = true) :
    WatchdogQuery.shutdown q = q ∧ WatchdogQuery.kill q = q := by
  constructor <;>
    simp [WatchdogQuery.shutdown, WatchdogQuery.kill, WatchdogQuery.send,
      CommandQueue.sendRaw, h]

/-- Witness for C10 on a concrete closed queue. -/
theorem query_shutdown_kill_never_fail_witness :
    WatchdogQuery.shutdown { buffer := [], closed := true } =
        { buffer := [], closed := true } ∧
      WatchdogQuery.kill { buffer := [], closed := true } =
        { buffer := [], closed := true } :=
  query_shutdown_kill_never_fail { buffer := [], closed := true } rfl
